import Mathlib

/-!
# LoRa relay firmware: scheduler arithmetic, radio arbiter and debounce

Shallow embedding of `src/functionlib.cpp` and `src/main.cpp`.

Conventions of the embedding:

* The target is the ESP8266 (`ICACHE_RAM_ATTR`, NodeMCU pin names), where
  `long` and `unsigned long` are 32 bits wide. A `uint32_t` value is a `Nat`
  below `2^32`; every conversion to `uint32_t` is written `toUInt32` and every
  conversion to `int32_t` is written `toInt32`.
* `millis()` is an input of each operation: the tick counter is read once per
  call and does not advance while the call runs.
* Process-wide variables and function-local `static` variables are the fields
  of `State`; an operation is a function from `State` to `State`.
* The radio driver is outside the repository. Commands issued to it are
  appended to `State.radioLog`; the result codes it returns are supplied by a
  `Radio` oracle, a function of the commands issued so far.
* `Serial` output is appended to `State.serial`.
* Interrupt handlers (`setFlag`, `D2Read`) are operations of their own; a
  main-loop operation is modelled without preemption.
-/

namespace LoraRelay

/-! ## Fixed-width integers -/

/-- Conversion of an integer to `uint32_t`: reduction modulo `2^32`. -/
def toUInt32 (z : Int) : Nat := (z % 4294967296).toNat

/-- Conversion of a `uint32_t` value to `int32_t`: two's complement
reinterpretation. -/
def toInt32 (x : Nat) : Int :=
  if x % 4294967296 < 2147483648 then ((x % 4294967296 : Nat) : Int)
  else ((x % 4294967296 : Nat) : Int) - 4294967296

/-! ## functionlib.cpp -/

/-- `TimeDifference(prev, next)`: `(int32_t)(next - prev)` on `uint32_t`. -/
def TimeDifference (prev next : Nat) : Int :=
  toInt32 (toUInt32 ((next : Int) - (prev : Int)))

/-- `TimePassedSince(timestamp)` with the clock reading `millis`. -/
def TimePassedSince (millis timestamp : Nat) : Int :=
  TimeDifference timestamp millis

/-- `TimeReached(timer)` with the clock reading `millis`. -/
def TimeReached (millis timer : Nat) : Bool :=
  let passed := TimePassedSince millis timer
  decide (passed ≥ 0)

/-- `SetNextTimeInterval(timer, step)` with the clock reading `millis`;
the result is the new value of `timer`. -/
def SetNextTimeInterval (millis timer step : Nat) : Nat :=
  let timer := toUInt32 ((timer : Int) + (step : Int))
  let passed := TimePassedSince millis timer
  if passed < 0 then timer
  else if toUInt32 passed > step then toUInt32 ((millis : Int) + (step : Int))
  else toUInt32 ((millis : Int) + ((step : Int) - passed))

/-! ## main.cpp: data -/

/-- `enum RadioAction { RADIO_OFF, RADIO_TX, RADIO_RX }`, the values
`radioAction` is assigned. -/
inductive RadioAction where
  | RADIO_OFF
  | RADIO_TX
  | RADIO_RX
deriving DecidableEq, Repr

/-- `enum TimeAwareActions { FUNC_MINUTE, FUNC_SECOND, FUNC_100_MSEC }`. -/
inductive TimeAwareActions where
  | FUNC_MINUTE
  | FUNC_SECOND
  | FUNC_100_MSEC
deriving DecidableEq, Repr

open RadioAction TimeAwareActions

/-- `struct INTERRUPTS`, one entry of `inputInterrupts[3]`. -/
structure INTERRUPTS where
  interruptAttached : Bool
  pinState : Bool
  stateTransmitted : Bool
deriving DecidableEq, Repr

/-- A call made to the radio driver. -/
inductive RadioCmd where
  | begin
  | setFrequency (mhz : Nat)
  | setDio0Action
  | startTransmit (msg : String)
  | startReceive
  | readData
  | getRSSI
deriving DecidableEq, Repr

/-- A call made to `Serial`; `printRSSI` is `Serial.print(radio.getRSSI())`. -/
inductive SerialOut where
  | print (text : String)
  | println (text : String)
  | printRSSI
deriving DecidableEq, Repr

/-- The radio driver seen from the firmware: the result code of each call, as a
function of the commands issued before it. -/
structure Radio where
  beginResult : Int
  startTransmit : List RadioCmd → String → Int
  readData : List RadioCmd → Int × String

/-- Modelled from the spec: `ERR_NONE`, the driver's success code; the RadioLib
header that defines it is not among the sources. -/
def ERR_NONE : Int := 0

/-- Modelled from the spec: `ERR_CRC_MISMATCH`, the driver's code for a
malformed receive; the RadioLib header that defines it is not among the
sources. -/
def ERR_CRC_MISMATCH : Int := -7

/-- `#define RADIO_FREQ_MHZ 868`. -/
def RADIO_FREQ_MHZ : Nat := 868

/-- `uint16_t debounce = 50;` (never assigned afterwards). -/
def debounce : Nat := 50

/-- The process-wide variables of `main.cpp`, the `static` locals of `D2Read`
(`lastState`, `lastDebounceTime`; `none` until the first call initialises it)
and of `loop` (`state_minute`, `state_second`, `state_100_msec`), and the
record of calls made to the radio driver and to `Serial`. -/
structure State where
  transmissionState : Int
  radioAction : RadioAction
  inputInterrupts : Fin 3 → INTERRUPTS
  transmittedFlag : Bool
  receivedFlag : Bool
  enableInterrupt : Bool
  lastState : Bool
  lastDebounceTime : Option Nat
  state_minute : Nat
  state_second : Nat
  state_100_msec : Nat
  radioLog : List RadioCmd
  serial : List SerialOut

/-- The variables as their initialisers leave them before `setup` runs. -/
def bootState : State where
  transmissionState := ERR_NONE
  radioAction := RADIO_OFF
  inputInterrupts := fun _ =>
    { interruptAttached := false, pinState := false, stateTransmitted := false }
  transmittedFlag := false
  receivedFlag := false
  enableInterrupt := true
  lastState := false
  lastDebounceTime := none
  state_minute := 0
  state_second := 0
  state_100_msec := 0
  radioLog := []
  serial := []

/-- Append one `Serial` call to the record. -/
def State.out (s : State) (o : SerialOut) : State :=
  { s with serial := s.serial ++ [o] }

/-- Append one radio driver call to the record. -/
def State.cmd (s : State) (c : RadioCmd) : State :=
  { s with radioLog := s.radioLog ++ [c] }

/-! ## main.cpp: operations -/

/-- `setup()`: `none` when `radio.begin()` fails and the firmware halts in
`while (true);`. `pinMode` has no effect on the modelled state. -/
def setup (radio : Radio) (s : State) : Option State :=
  let s := s.out (.print "[RFM95] Initializing ... ")
  let state := radio.beginResult
  let s := s.cmd .begin
  if state = ERR_NONE then
    let s := s.out (.println "success!")
    let s := s.cmd (.setFrequency RADIO_FREQ_MHZ)
    let s := s.out (.print "[RFM95] Sending first packet ... ")
    let s := s.cmd .setDio0Action
    let s := { s.cmd (.startTransmit "System up") with
      transmissionState := radio.startTransmit s.radioLog "System up" }
    some { s with radioAction := RADIO_TX }
  else
    none

/-- `setFlag()`, the radio completion interrupt handler. -/
def setFlag (s : State) : State :=
  if !s.enableInterrupt then s
  else
    let s :=
      if s.radioAction = RADIO_TX then { s with transmittedFlag := true }
      else if s.radioAction = RADIO_RX then { s with receivedFlag := true }
      else s
    { s with radioAction := RADIO_OFF }

/-- `checkLoraSend()`. -/
def checkLoraSend (s : State) : State :=
  if s.transmittedFlag then
    let s := { s with enableInterrupt := false }
    let s := { s with transmittedFlag := false }
    let s := { s with radioAction := RADIO_OFF }
    let s :=
      if s.transmissionState = ERR_NONE then
        s.out (.println "transmission finished!")
      else
        (s.out (.print "failed, code ")).out (.println (toString s.transmissionState))
    { s with enableInterrupt := true }
  else s

/-- `checkLoraRecv()`. -/
def checkLoraRecv (radio : Radio) (s : State) : State :=
  if s.receivedFlag then
    let s := { s with enableInterrupt := false }
    let s := { s with receivedFlag := false }
    let res := radio.readData s.radioLog
    let state := res.1
    let str := res.2
    let s := s.cmd .readData
    let s :=
      if state = ERR_NONE then
        let s := s.out (.println "[RFM95] Received packet!")
        let s := s.out (.print "[RFM95] Data:\t\t")
        let s := s.out (.println str)
        let s := s.out (.print "[RFM95] RSSI:\t\t")
        let s := (s.cmd .getRSSI).out .printRSSI
        s.out (.println " dBm")
      else if state = ERR_CRC_MISMATCH then
        s.out (.println "CRC error!")
      else
        (s.out (.print "failed, code ")).out (.println (toString state))
    { s with enableInterrupt := true }
  else s

/-- `loraSend(msg)`: the returned flag and the state afterwards. -/
def loraSend (radio : Radio) (msg : String) (s : State) : Bool × State :=
  if s.radioAction = RADIO_TX then (false, s)
  else
    let s := s.out (.print "[RFM95] Sending packet ... ")
    let s := { s with radioAction := RADIO_TX }
    let s := { s.cmd (.startTransmit msg) with
      transmissionState := radio.startTransmit s.radioLog msg }
    let s := { s with enableInterrupt := true }
    (true, s)

/-- The payload `(String) "Pin" + i + "State" + pinState`: the index in
decimal, the `bool` as `0` or `1`. -/
def pinMessage (i : Fin 3) (pinState : Bool) : String :=
  "Pin" ++ toString i.val ++ "State" ++ (if pinState then "1" else "0")

/-- One iteration of the `for` loop of `sendPinState`, for index `i`. -/
def sendPinStateStep (radio : Radio) (s : State) (i : Fin 3) : State :=
  if (s.inputInterrupts i).interruptAttached && !(s.inputInterrupts i).stateTransmitted then
    let r := loraSend radio (pinMessage i (s.inputInterrupts i).pinState) s
    if r.1 then
      let entry := { (r.2.inputInterrupts i) with stateTransmitted := true }
      { r.2 with inputInterrupts := Function.update r.2.inputInterrupts i entry }
    else r.2
  else s

/-- `sendPinState()`: the loop over `i = 0, 1, 2`. -/
def sendPinState (radio : Radio) (s : State) : State :=
  [(0 : Fin 3), 1, 2].foldl (sendPinStateStep radio) s

/-- `timeLoop(action)`. -/
def timeLoop (radio : Radio) (action : TimeAwareActions) (s : State) : State :=
  match action with
  | FUNC_MINUTE => (loraSend radio "SYN" s).2
  | FUNC_SECOND => s
  | FUNC_100_MSEC => sendPinState radio (checkLoraRecv radio (checkLoraSend s))

/-- `D2Read()`, the pin-change interrupt handler: `digitalRead` is the value
read from pin D2 and `millis` the clock reading. -/
def D2Read (digitalRead : Bool) (millis : Nat) (s : State) : State :=
  let lastDebounceTime := s.lastDebounceTime.getD millis
  let pinState := digitalRead
  let lastDebounceTime :=
    if pinState != s.lastState then millis else lastDebounceTime
  let s := { s with lastDebounceTime := some lastDebounceTime }
  let s :=
    if toUInt32 ((millis : Int) - (lastDebounceTime : Int)) > debounce then
      if pinState != (s.inputInterrupts 0).pinState then
        let entry :=
          { (s.inputInterrupts 0) with pinState := pinState, stateTransmitted := false }
        { s with inputInterrupts := Function.update s.inputInterrupts 0 entry }
      else s
    else s
  { s with lastState := pinState }

/-- The first statement of `loop()`: start listening when nothing is
outstanding. -/
def loopListen (s : State) : State :=
  if s.radioAction = RADIO_OFF then
    { s with radioAction := RADIO_RX }.cmd .startReceive
  else s

/-- The second statement of `loop()`: attach the pin-change handler once. -/
def loopAttach (s : State) : State :=
  if !(s.inputInterrupts 0).interruptAttached then
    let entry := { (s.inputInterrupts 0) with interruptAttached := true }
    { s with inputInterrupts := Function.update s.inputInterrupts 0 entry }
  else s

/-- One pass of `loop()` with the clock reading `millis`. -/
def loop (radio : Radio) (millis : Nat) (s : State) : State :=
  let s := loopListen s
  let s := loopAttach s
  let s :=
    if TimeReached millis s.state_minute then
      timeLoop radio FUNC_MINUTE
        { s with state_minute := SetNextTimeInterval millis s.state_minute 60000 }
    else s
  let s :=
    if TimeReached millis s.state_second then
      timeLoop radio FUNC_SECOND
        { s with state_second := SetNextTimeInterval millis s.state_second 1000 }
    else s
  if TimeReached millis s.state_100_msec then
    timeLoop radio FUNC_100_MSEC
      { s with state_100_msec := SetNextTimeInterval millis s.state_100_msec 100 }
  else s

/-- The third statement of `loop()`: the minute task. -/
def loopMinute (radio : Radio) (millis : Nat) (s : State) : State :=
  if TimeReached millis s.state_minute then
    timeLoop radio FUNC_MINUTE
      { s with state_minute := SetNextTimeInterval millis s.state_minute 60000 }
  else s

/-- The fourth statement of `loop()`: the second task. -/
def loopSecond (radio : Radio) (millis : Nat) (s : State) : State :=
  if TimeReached millis s.state_second then
    timeLoop radio FUNC_SECOND
      { s with state_second := SetNextTimeInterval millis s.state_second 1000 }
  else s

/-- The fifth statement of `loop()`: the 100 ms task. -/
def loop100Msec (radio : Radio) (millis : Nat) (s : State) : State :=
  if TimeReached millis s.state_100_msec then
    timeLoop radio FUNC_100_MSEC
      { s with state_100_msec := SetNextTimeInterval millis s.state_100_msec 100 }
  else s

/-- A radio whose every call succeeds and whose receive buffer is empty. -/
def idealRadio : Radio where
  beginResult := ERR_NONE
  startTransmit := fun _ _ => ERR_NONE
  readData := fun _ => (ERR_NONE, "")

/-! ## The notification loop, iteration by iteration -/

/-- The first two operands of the condition in `sendPinState`: the pin is
attached and its stable state has not been transmitted. -/
def pinPending (s : State) (i : Fin 3) : Bool :=
  (s.inputInterrupts i).interruptAttached && !(s.inputInterrupts i).stateTransmitted

/-- The state on entry to iteration `i` of the `for` loop of `sendPinState`. -/
def sendPinStateBefore (radio : Radio) (s : State) (i : Fin 3) : State :=
  ((List.finRange 3).take i.val).foldl (sendPinStateStep radio) s

/-- The boot values with pins 1 and 2 attached, pin 2 high, and a receive
outstanding. -/
def twoPinsPendingState : State :=
  { bootState with
    radioAction := RADIO_RX
    inputInterrupts := fun i =>
      { interruptAttached := decide (i ≠ 0), pinState := decide (i = 2),
        stateTransmitted := false } }

/-- The state after the notification of pin 1 was sent from
`twoPinsPendingState` and its completion was consumed: pin 2, high, is the
only pending pin and nothing is outstanding. -/
def pinTwoPendingState : State :=
  checkLoraSend (setFlag (sendPinState idealRadio twoPinsPendingState))

/-! ## Sequences of operations -/

/-- A call of one of the operations of `main.cpp`, with its inputs: the
main-loop operations, a pass of `loop`, and the two interrupt handlers. -/
inductive Call where
  | checkSend
  | checkRecv
  | send (msg : String)
  | sendPins
  | time (action : TimeAwareActions)
  | pass (millis : Nat)
  | completion
  | pinChange (digitalRead : Bool) (millis : Nat)
deriving DecidableEq, Repr

/-- The state after one call. -/
def perform (radio : Radio) (s : State) : Call → State
  | .checkSend => checkLoraSend s
  | .checkRecv => checkLoraRecv radio s
  | .send msg => (loraSend radio msg s).2
  | .sendPins => sendPinState radio s
  | .time action => timeLoop radio action s
  | .pass millis => loop radio millis s
  | .completion => setFlag s
  | .pinChange digitalRead millis => D2Read digitalRead millis s

/-- The state after a sequence of calls, each running to its end before the
next starts. -/
def performAll (radio : Radio) (s : State) (calls : List Call) : State :=
  calls.foldl (perform radio) s

/-- The states after each of a sequence of `D2Read` invocations, in order. An
invocation is the raw value read and the tick at which it runs, counted from
boot without wrapping; the handler sees that tick modulo `2^32`. -/
def D2ReadRun (s : State) : List (Bool × Nat) → List State
  | [] => []
  | (raw, tick) :: rest =>
    D2Read raw (tick % 4294967296) s :: D2ReadRun (D2Read raw (tick % 4294967296) s) rest

/-- A flapping pin, in the words of the debounce property: every invocation
either reads a raw value different from the one read by the previous
invocation (`prevRaw`), or runs at most `debounce` ticks after the most recent
invocation at which the raw value changed (`lastChange`). Before the very first
invocation there is no earlier reading (`lastChange = none`): that invocation
is unconstrained and counts as the most recent change. -/
def flapping : Bool → Option Nat → List (Bool × Nat) → Bool
  | _, _, [] => true
  | _, none, (raw, tick) :: rest => flapping raw (some tick) rest
  | prevRaw, some changed, (raw, tick) :: rest =>
    if raw != prevRaw then flapping raw (some tick) rest
    else decide (changed ≤ tick ∧ tick - changed ≤ debounce) && flapping raw (some changed) rest

/-- A pin read five times from boot: high, low 20 ticks later, low again 40
ticks after that, high shortly before the tick counter wraps and high again 10
ticks later, after the wrap. -/
def flappingExample : List (Bool × Nat) :=
  [(true, 100), (false, 120), (false, 160), (true, 4294967290), (true, 4294967300)]

/-! ## Concrete states used in examples -/

/-- A receive is outstanding: `loop` has started listening from the boot
values. -/
def midReceiveState : State := loopListen bootState

/-- A transmit is outstanding and the gate is closed. -/
def gateClosedState : State :=
  { bootState with radioAction := RADIO_TX, enableInterrupt := false }

/-- A transmit is outstanding and the gate is open. -/
def transmittingState : State :=
  { bootState with radioAction := RADIO_TX }

/-- From the boot values: `loop` started listening and attached pin 0, the
notification for pin 0 was sent, its completion interrupt ran, and the next
pass of `loop` has started listening again; `transmittedFlag` is still
pending. -/
def txDoneListeningState : State :=
  loopListen (setFlag (sendPinState idealRadio (loopAttach (loopListen bootState))))

/-- From the boot values, `D2Read` read pin D2 high at tick `2^32 - 6`, shortly
before the tick counter wraps: the raw change is recorded, the stable state is
still low. -/
def heldHighState : State := D2Read true 4294967290 bootState

/-- From the boot values, `D2Read` read pin D2 high at tick 100. -/
def changedAt100State : State := D2Read true 100 bootState

/-- Pin 0 attached, its high state not yet transmitted, nothing outstanding,
and both the minute and the 100 ms timers due at clock reading 0. -/
def pinChangedIdleState : State :=
  { bootState with
    inputInterrupts := fun i =>
      { interruptAttached := decide (i = 0), pinState := decide (i = 0),
        stateTransmitted := false } }

/-! ## Theorems -/

/-- C1: for every 32-bit tick `t0` and true elapsed time `d < 2^31`,
`TimePassedSince t0` read while the clock shows `(t0 + d) mod 2^32` is exactly
`d` (equivalently `TimeDifference t0 ((t0 + d) mod 2^32) = d`); across the
wraparound `t0 = 2^32 - 100`, clock `50`, the result is `150`. -/
theorem timePassedSince_exact (t0 d : Nat) (_h0 : t0 < 4294967296)
    (hd : d < 2147483648) :
    TimePassedSince ((t0 + d) % 4294967296) t0 = (d : Int) ∧
    TimeDifference t0 ((t0 + d) % 4294967296) = (d : Int) ∧
    TimeDifference 4294967196 50 = 150 := by
  have key : TimeDifference t0 ((t0 + d) % 4294967296) = (d : Int) := by
    unfold TimeDifference toInt32 toUInt32
    have h1 : ((((t0 + d) % 4294967296 : Nat) : Int) - (t0 : Int)) % 4294967296
        = (d : Int) := by omega
    rw [h1]
    simp only [Int.toNat_ofNat]
    have h2 : d % 4294967296 = d := by omega
    rw [h2, if_pos hd]
  refine ⟨key, key, ?_⟩
  decide

/-- Witness for C1 at the wraparound example `t0 = 2^32 - 100`, `d = 150`. -/
theorem timePassedSince_exact_witness :
    4294967196 < 4294967296 ∧ 150 < 2147483648 ∧
    (TimePassedSince ((4294967196 + 150) % 4294967296) 4294967196 = ((150 : Nat) : Int) ∧
     TimeDifference 4294967196 ((4294967196 + 150) % 4294967296) = ((150 : Nat) : Int) ∧
     TimeDifference 4294967196 50 = 150) :=
  ⟨by decide, by decide, timePassedSince_exact 4294967196 150 (by decide) (by decide)⟩

/-! ### Radio arbiter -/

/-- The flag returned by `loraSend`. -/
lemma loraSend_fst (radio : Radio) (msg : String) (s : State) :
    (loraSend radio msg s).1 = !decide (s.radioAction = RADIO_TX) := by
  unfold loraSend
  by_cases h : s.radioAction = RADIO_TX <;> simp [h]

/-- After `loraSend` a transmit is outstanding, whether or not the request was
accepted. -/
lemma loraSend_radioAction (radio : Radio) (msg : String) (s : State) :
    (loraSend radio msg s).2.radioAction = RADIO_TX := by
  unfold loraSend
  by_cases h : s.radioAction = RADIO_TX <;> simp [h, State.cmd, State.out]

/-- C2 (counterexample): with a receive outstanding (`radioAction == RADIO_RX`,
not `RADIO_OFF`) the heartbeat request is accepted, and `timeLoop(FUNC_MINUTE)`
leaves `radioAction == RADIO_TX`, not `RADIO_RX`. -/
theorem loraSend_accepts_mid_receive :
    midReceiveState.radioAction = RADIO_RX ∧
    ¬ ((loraSend idealRadio "SYN" midReceiveState).1 = true ↔
        midReceiveState.radioAction = RADIO_OFF) ∧
    (timeLoop idealRadio FUNC_MINUTE midReceiveState).radioAction ≠ RADIO_RX := by
  decide

/-- C2 (amended): `loraSend` returns true if and only if no transmit is
outstanding on entry (`radioAction != RADIO_TX`); either way a transmit is
outstanding afterwards, so a heartbeat requested mid-receive is accepted and
`timeLoop(FUNC_MINUTE)` ends with `radioAction == RADIO_TX`. -/
theorem loraSend_accepted_iff_not_transmitting (radio : Radio) (msg : String)
    (s : State) :
    ((loraSend radio msg s).1 = true ↔ s.radioAction ≠ RADIO_TX) ∧
    (loraSend radio msg s).2.radioAction = RADIO_TX ∧
    (timeLoop radio FUNC_MINUTE s).radioAction = RADIO_TX := by
  refine ⟨?_, loraSend_radioAction radio msg s, loraSend_radioAction radio "SYN" s⟩
  rw [loraSend_fst]
  simp

/-- C3: when `loraSend` returns true, `radioAction == RADIO_TX` and the gate
`enableInterrupt` is open afterwards; when it returns false the whole state,
the record of radio commands included, is the state on entry. -/
theorem loraSend_result_effect (radio : Radio) (msg : String) (s : State) :
    ((loraSend radio msg s).1 = true →
      (loraSend radio msg s).2.radioAction = RADIO_TX ∧
      (loraSend radio msg s).2.enableInterrupt = true) ∧
    ((loraSend radio msg s).1 = false → (loraSend radio msg s).2 = s) := by
  unfold loraSend
  by_cases h : s.radioAction = RADIO_TX <;> simp [h, State.cmd, State.out]

/-- Witness for C3: an accepted request from the boot values and a rejected one
while transmitting. -/
theorem loraSend_result_effect_witness :
    ((loraSend idealRadio "SYN" bootState).2.radioAction = RADIO_TX ∧
      (loraSend idealRadio "SYN" bootState).2.enableInterrupt = true) ∧
    (loraSend idealRadio "SYN" transmittingState).2 = transmittingState :=
  ⟨(loraSend_result_effect idealRadio "SYN" bootState).1 (by decide),
   (loraSend_result_effect idealRadio "SYN" transmittingState).2 (by decide)⟩

/-- C4: with the gate open, `setFlag` sets the flag of the action outstanding
at interrupt time, leaves the other flag alone and returns the arbiter to
`RADIO_OFF`; from `RADIO_OFF` no flag changes and the action stays
`RADIO_OFF`. In every state, gate open or not, a flag that is set stays
set. -/
theorem setFlag_gate_open (s : State) :
    (s.enableInterrupt = true →
      (s.radioAction = RADIO_TX →
        (setFlag s).transmittedFlag = true ∧
        (setFlag s).receivedFlag = s.receivedFlag ∧
        (setFlag s).radioAction = RADIO_OFF) ∧
      (s.radioAction = RADIO_RX →
        (setFlag s).receivedFlag = true ∧
        (setFlag s).transmittedFlag = s.transmittedFlag ∧
        (setFlag s).radioAction = RADIO_OFF) ∧
      (s.radioAction = RADIO_OFF →
        (setFlag s).transmittedFlag = s.transmittedFlag ∧
        (setFlag s).receivedFlag = s.receivedFlag ∧
        (setFlag s).radioAction = RADIO_OFF)) ∧
    (s.transmittedFlag = true → (setFlag s).transmittedFlag = true) ∧
    (s.receivedFlag = true → (setFlag s).receivedFlag = true) := by
  unfold setFlag
  cases hg : s.enableInterrupt <;> cases ha : s.radioAction <;> simp

/-- Witness for C4: the completion of an outstanding transmit. -/
theorem setFlag_gate_open_witness :
    (setFlag transmittingState).transmittedFlag = true ∧
    (setFlag transmittingState).receivedFlag = transmittingState.receivedFlag ∧
    (setFlag transmittingState).radioAction = RADIO_OFF :=
  ((setFlag_gate_open transmittingState).1 (by decide)).1 (by decide)

/-- C5: with the gate closed (`enableInterrupt == false`) `setFlag` returns the
state it was given: `radioAction`, both flags and every other component are
unchanged. -/
theorem setFlag_gate_closed (s : State) (h : s.enableInterrupt = false) :
    setFlag s = s := by
  unfold setFlag
  simp [h]

/-- Witness for C5: an interrupt arriving while a transmit is outstanding and
the gate is closed. -/
theorem setFlag_gate_closed_witness :
    gateClosedState.enableInterrupt = false ∧
    setFlag gateClosedState = gateClosedState :=
  ⟨by decide, setFlag_gate_closed gateClosedState (by decide)⟩

/-- `checkLoraRecv` does not assign `radioAction`. -/
lemma checkLoraRecv_radioAction (radio : Radio) (s : State) :
    (checkLoraRecv radio s).radioAction = s.radioAction := by
  unfold checkLoraRecv
  by_cases h : s.receivedFlag = true
  · simp only [h, if_true]
    split_ifs <;> simp [State.cmd, State.out]
  · simp [h]

/-- `D2Read` does not assign `radioAction`. -/
lemma D2Read_radioAction (raw : Bool) (millis : Nat) (s : State) :
    (D2Read raw millis s).radioAction = s.radioAction := by
  unfold D2Read
  simp only
  split_ifs <;> rfl

/-- One iteration of `sendPinState` leaves `radioAction` alone or sets it to
`RADIO_TX`. -/
lemma sendPinStateStep_radioAction (radio : Radio) (s : State) (i : Fin 3) :
    (sendPinStateStep radio s i).radioAction = s.radioAction ∨
    (sendPinStateStep radio s i).radioAction = RADIO_TX := by
  unfold sendPinStateStep
  simp only
  split_ifs
  · right
    exact loraSend_radioAction radio _ s
  · right
    exact loraSend_radioAction radio _ s
  · left
    rfl

/-- `sendPinState` leaves `radioAction` alone or sets it to `RADIO_TX`. -/
lemma sendPinState_radioAction (radio : Radio) (s : State) :
    (sendPinState radio s).radioAction = s.radioAction ∨
    (sendPinState radio s).radioAction = RADIO_TX := by
  unfold sendPinState
  simp only [List.foldl_cons, List.foldl_nil]
  rcases sendPinStateStep_radioAction radio s 0 with h0 | h0 <;>
  rcases sendPinStateStep_radioAction radio (sendPinStateStep radio s 0) 1 with h1 | h1 <;>
  rcases sendPinStateStep_radioAction radio
    (sendPinStateStep radio (sendPinStateStep radio s 0) 1) 2 with h2 | h2 <;>
  simp_all

/-- `checkLoraSend` with no pending `transmittedFlag` is the identity. -/
lemma checkLoraSend_idle (s : State) (h : s.transmittedFlag = false) :
    checkLoraSend s = s := by
  unfold checkLoraSend
  simp [h]

/-- `checkLoraSend` with a pending `transmittedFlag` resets `radioAction`. -/
lemma checkLoraSend_pending_radioAction (s : State) (h : s.transmittedFlag = true) :
    (checkLoraSend s).radioAction = RADIO_OFF := by
  unfold checkLoraSend
  simp only [h, if_true]
  split_ifs <;> simp [State.out]

/-- C6 (counterexample): after a transmit completed and the next pass started
listening (`radioAction == RADIO_RX`, `transmittedFlag` pending), the main-loop
operation `checkLoraSend`, and `timeLoop(FUNC_100_MSEC)` through it, produce
`radioAction == RADIO_OFF`. -/
theorem checkLoraSend_resets_mid_receive :
    txDoneListeningState.radioAction = RADIO_RX ∧
    (checkLoraSend txDoneListeningState).radioAction = RADIO_OFF ∧
    (timeLoop idealRadio FUNC_100_MSEC txDoneListeningState).radioAction = RADIO_OFF := by
  decide

/-- C6 (amended): from a state with `radioAction` in `{RADIO_TX, RADIO_RX}`,
the listening step of `loop`, `loraSend`, `sendPinState`, `checkLoraRecv`,
`timeLoop(FUNC_MINUTE)`, `timeLoop(FUNC_SECOND)` and `D2Read` never produce
`RADIO_OFF`, and neither do `checkLoraSend` and `timeLoop(FUNC_100_MSEC)` while
`transmittedFlag` is false. The transition to `RADIO_OFF` is made by `setFlag`
(gate open) and by `checkLoraSend` when it consumes a pending
`transmittedFlag`. -/
theorem radioAction_off_transitions (radio : Radio) (msg : String) (raw : Bool)
    (millis : Nat) (s : State)
    (h : s.radioAction = RADIO_TX ∨ s.radioAction = RADIO_RX) :
    (loopListen s).radioAction ≠ RADIO_OFF ∧
    (loraSend radio msg s).2.radioAction ≠ RADIO_OFF ∧
    (sendPinState radio s).radioAction ≠ RADIO_OFF ∧
    (checkLoraRecv radio s).radioAction ≠ RADIO_OFF ∧
    (timeLoop radio FUNC_MINUTE s).radioAction ≠ RADIO_OFF ∧
    (timeLoop radio FUNC_SECOND s).radioAction ≠ RADIO_OFF ∧
    (D2Read raw millis s).radioAction ≠ RADIO_OFF ∧
    (s.transmittedFlag = false →
      (checkLoraSend s).radioAction ≠ RADIO_OFF ∧
      (timeLoop radio FUNC_100_MSEC s).radioAction ≠ RADIO_OFF) ∧
    (s.transmittedFlag = true → (checkLoraSend s).radioAction = RADIO_OFF) ∧
    (s.enableInterrupt = true → (setFlag s).radioAction = RADIO_OFF) := by
  have hne : s.radioAction ≠ RADIO_OFF := by
    rcases h with h | h <;> simp [h]
  refine ⟨?_, ?_, ?_, ?_, ?_, ?_, ?_, ?_, ?_, ?_⟩
  · unfold loopListen
    simp [hne]
  · rw [loraSend_radioAction]
    simp
  · rcases sendPinState_radioAction radio s with h1 | h1 <;> rw [h1]
    · exact hne
    · simp
  · rw [checkLoraRecv_radioAction]
    exact hne
  · show (loraSend radio "SYN" s).2.radioAction ≠ RADIO_OFF
    rw [loraSend_radioAction]
    simp
  · exact hne
  · rw [D2Read_radioAction]
    exact hne
  · intro hf
    refine ⟨by rw [checkLoraSend_idle s hf]; exact hne, ?_⟩
    show (sendPinState radio (checkLoraRecv radio (checkLoraSend s))).radioAction ≠ RADIO_OFF
    rw [checkLoraSend_idle s hf]
    rcases sendPinState_radioAction radio (checkLoraRecv radio s) with h1 | h1 <;> rw [h1]
    · rw [checkLoraRecv_radioAction]
      exact hne
    · simp
  · exact checkLoraSend_pending_radioAction s
  · intro hg
    unfold setFlag
    simp [hg]

/-- Witness for C6 (amended): a receive outstanding, then the completion
interrupt. -/
theorem radioAction_off_transitions_witness :
    (midReceiveState.radioAction = RADIO_TX ∨ midReceiveState.radioAction = RADIO_RX) ∧
    (sendPinState idealRadio midReceiveState).radioAction ≠ RADIO_OFF ∧
    (setFlag midReceiveState).radioAction = RADIO_OFF :=
  ⟨by decide,
   (radioAction_off_transitions idealRadio "SYN" true 0 midReceiveState (by decide)).2.2.1,
   (radioAction_off_transitions idealRadio "SYN" true 0 midReceiveState
      (by decide)).2.2.2.2.2.2.2.2.2 (by decide)⟩

/-! ### Interval scheduler -/

/-- The result of `TimeDifference` is an `int32_t`. -/
lemma timeDifference_range (prev next : Nat) :
    -2147483648 ≤ TimeDifference prev next ∧ TimeDifference prev next < 2147483648 := by
  unfold TimeDifference toInt32 toUInt32
  split_ifs <;> omega

/-- The branches of `SetNextTimeInterval` with the casts resolved: the advanced
deadline is `(timer + step) mod 2^32` and, `passed` being non-negative where it
is cast to `unsigned long`, the cast keeps its value. -/
lemma setNextTimeInterval_cases (now timer step : Nat) :
    SetNextTimeInterval now timer step =
      if TimeDifference ((timer + step) % 4294967296) now < 0 then
        (timer + step) % 4294967296
      else if (step : Int) < TimeDifference ((timer + step) % 4294967296) now then
        toUInt32 ((now : Int) + (step : Int))
      else
        toUInt32 ((now : Int) + ((step : Int)
          - TimeDifference ((timer + step) % 4294967296) now)) := by
  have hd : toUInt32 ((timer : Int) + (step : Int)) = (timer + step) % 4294967296 := by
    unfold toUInt32
    omega
  have hr := timeDifference_range ((timer + step) % 4294967296) now
  unfold SetNextTimeInterval TimePassedSince
  simp only [hd]
  by_cases h : TimeDifference ((timer + step) % 4294967296) now < 0
  · simp only [h, if_true]
  · simp only [h, if_false]
    have hc : (toUInt32 (TimeDifference ((timer + step) % 4294967296) now) > step) ↔
        ((step : Int) < TimeDifference ((timer + step) % 4294967296) now) := by
      unfold toUInt32
      omega
    by_cases h2 : (step : Int) < TimeDifference ((timer + step) % 4294967296) now
    · rw [if_pos (hc.mpr h2), if_pos h2]
    · rw [if_neg (fun hh => h2 (hc.mp hh)), if_neg h2]

/-- With the clock `e` ticks past `timer`, the signed time passed since the
advanced deadline `timer + step` is `e - step`, as long as that difference fits
an `int32_t`. -/
lemma timeDifference_late (timer step e : Nat)
    (h1 : step < 2147483648 + e) (h2 : e < 2147483648 + step) :
    TimeDifference ((timer + step) % 4294967296) ((timer + e) % 4294967296)
      = (e : Int) - (step : Int) := by
  unfold TimeDifference toInt32 toUInt32
  split_ifs <;> omega

/-- C7: the three-way re-arm policy of `SetNextTimeInterval`. With
`d = (timer + step) mod 2^32` and `passed = TimeDifference d now`: the new
deadline is `d` when `passed < 0`, `(now + step) mod 2^32` when
`passed > step`, and `(now + (step - passed)) mod 2^32` when
`0 <= passed <= step`. -/
theorem setNextTimeInterval_policy (now timer step : Nat) :
    (TimeDifference ((timer + step) % 4294967296) now < 0 →
      SetNextTimeInterval now timer step = (timer + step) % 4294967296) ∧
    ((step : Int) < TimeDifference ((timer + step) % 4294967296) now →
      SetNextTimeInterval now timer step = (now + step) % 4294967296) ∧
    (0 ≤ TimeDifference ((timer + step) % 4294967296) now →
      TimeDifference ((timer + step) % 4294967296) now ≤ (step : Int) →
      (SetNextTimeInterval now timer step : Int) =
        ((now : Int) + ((step : Int) - TimeDifference ((timer + step) % 4294967296) now))
          % 4294967296) := by
  have hr := timeDifference_range ((timer + step) % 4294967296) now
  rw [setNextTimeInterval_cases]
  refine ⟨?_, ?_, ?_⟩
  · intro h
    rw [if_pos h]
  · intro h
    rw [if_neg (by omega), if_pos (by omega)]
    unfold toUInt32
    omega
  · intro h1 h2
    rw [if_neg (by omega), if_neg (by omega)]
    unfold toUInt32
    omega

/-- Witness for C7: period 1000 armed from deadline 0, at clock readings 500
(deadline kept), 2500 (resync) and 1500 (phase kept). -/
theorem setNextTimeInterval_policy_witness :
    SetNextTimeInterval 500 0 1000 = (0 + 1000) % 4294967296 ∧
    SetNextTimeInterval 2500 0 1000 = (2500 + 1000) % 4294967296 ∧
    (SetNextTimeInterval 1500 0 1000 : Int) =
      ((1500 : Nat) + (((1000 : Nat) : Int) -
        TimeDifference ((0 + 1000) % 4294967296) 1500)) % 4294967296 :=
  ⟨(setNextTimeInterval_policy 500 0 1000).1 (by decide),
   (setNextTimeInterval_policy 2500 0 1000).2.1 (by decide),
   (setNextTimeInterval_policy 1500 0 1000).2.2 (by decide) (by decide)⟩

/-- C8: re-arming a timer that is late by `e < step` (clock at
`(timer + e) mod 2^32`, `step < 2^31`) leaves the next deadline at
`now + (step - e)`, which is the old deadline plus `step`, modulo `2^32`; for
period 1000 and lateness 10 the next deadline is `now + 990`. -/
theorem setNextTimeInterval_phase_kept (timer step e : Nat)
    (he : e < step) (hs : step < 2147483648) :
    SetNextTimeInterval ((timer + e) % 4294967296) timer step
      = ((timer + e) % 4294967296 + (step - e)) % 4294967296 ∧
    SetNextTimeInterval ((timer + e) % 4294967296) timer step
      = (timer + step) % 4294967296 ∧
    SetNextTimeInterval ((timer + 10) % 4294967296) timer 1000
      = ((timer + 10) % 4294967296 + 990) % 4294967296 := by
  have early : ∀ s x : Nat, x < s → s < 2147483648 →
      SetNextTimeInterval ((timer + x) % 4294967296) timer s = (timer + s) % 4294967296 := by
    intro s x hx hs'
    have hp := timeDifference_late timer s x (by omega) (by omega)
    rw [setNextTimeInterval_cases, hp, if_pos (by omega)]
  refine ⟨?_, early step e he hs, ?_⟩
  · rw [early step e he hs]
    omega
  · rw [early 1000 10 (by omega) (by omega)]
    omega

/-- Witness for C8: period 1000, deadline 5000, clock 5010. -/
theorem setNextTimeInterval_phase_kept_witness :
    10 < 1000 ∧ 1000 < 2147483648 ∧
    (SetNextTimeInterval ((5000 + 10) % 4294967296) 5000 1000
      = ((5000 + 10) % 4294967296 + (1000 - 10)) % 4294967296 ∧
    SetNextTimeInterval ((5000 + 10) % 4294967296) 5000 1000
      = (5000 + 1000) % 4294967296 ∧
    SetNextTimeInterval ((5000 + 10) % 4294967296) 5000 1000
      = ((5000 + 10) % 4294967296 + 990) % 4294967296) :=
  ⟨by decide, by decide, setNextTimeInterval_phase_kept 5000 1000 10 (by decide) (by decide)⟩

/-- C9 (counterexample): period 1000, deadline 0 and clock 1500 (the timer is
due and 1500 past): the next deadline is 2000, that is `now + 500`, not
`now + 1000`. -/
theorem setNextTimeInterval_1500_late :
    TimeReached 1500 0 = true ∧
    TimePassedSince 1500 0 = 1500 ∧
    SetNextTimeInterval 1500 0 1000 = 1500 + 500 ∧
    SetNextTimeInterval 1500 0 1000 ≠ 1500 + 1000 := by
  decide

/-- C9 (amended): with period 1000, a timer whose deadline the clock is 1500
past is re-armed to `now + 500` (the old deadline plus 2000); the resync to
`now + 1000` happens when the clock is more than 2000 past the old deadline
(lateness `e` with `2000 < e < 2^31`). -/
theorem setNextTimeInterval_resync (timer e : Nat)
    (he : 2000 < e) (hd : e < 2147483648) :
    SetNextTimeInterval ((timer + e) % 4294967296) timer 1000
      = ((timer + e) % 4294967296 + 1000) % 4294967296 ∧
    SetNextTimeInterval ((timer + 1500) % 4294967296) timer 1000
      = ((timer + 1500) % 4294967296 + 500) % 4294967296 := by
  constructor
  · have hp := timeDifference_late timer 1000 e (by omega) (by omega)
    rw [setNextTimeInterval_cases, hp, if_neg (by omega), if_pos (by omega)]
    unfold toUInt32
    omega
  · have hp := timeDifference_late timer 1000 1500 (by omega) (by omega)
    rw [setNextTimeInterval_cases, hp, if_neg (by omega), if_neg (by omega)]
    unfold toUInt32
    omega

/-- Witness for C9 (amended): deadline 0, clock 2500. -/
theorem setNextTimeInterval_resync_witness :
    2000 < 2500 ∧ 2500 < 2147483648 ∧
    (SetNextTimeInterval ((0 + 2500) % 4294967296) 0 1000
      = ((0 + 2500) % 4294967296 + 1000) % 4294967296 ∧
    SetNextTimeInterval ((0 + 1500) % 4294967296) 0 1000
      = ((0 + 1500) % 4294967296 + 500) % 4294967296) :=
  ⟨by decide, by decide, setNextTimeInterval_resync 0 2500 (by decide) (by decide)⟩

/-! ### Debounce monitor -/

/-- `D2Read` records the raw value it read. -/
lemma D2Read_lastState (raw : Bool) (millis : Nat) (s : State) :
    (D2Read raw millis s).lastState = raw := by
  unfold D2Read
  rfl

/-- `D2Read` restarts the debounce timer when the raw value changed and
otherwise keeps it (initialising it on the first call). -/
lemma D2Read_lastDebounceTime (raw : Bool) (millis : Nat) (s : State) :
    (D2Read raw millis s).lastDebounceTime =
      some (if raw != s.lastState then millis else s.lastDebounceTime.getD millis) := by
  unfold D2Read
  simp only
  split_ifs <;> rfl

/-- `D2Read` leaves `inputInterrupts` alone unless more than `debounce` ticks
passed since the debounce timer was last restarted. -/
lemma D2Read_inputInterrupts_of_recent (raw : Bool) (millis : Nat) (s : State)
    (h : toUInt32 ((millis : Int) -
      ((if raw != s.lastState then millis else s.lastDebounceTime.getD millis : Nat) : Int))
        ≤ debounce) :
    (D2Read raw millis s).inputInterrupts = s.inputInterrupts := by
  unfold D2Read
  simp only
  rw [if_neg (by omega)]

/-- The elapsed time `D2Read` computes is zero right after a restart of the
debounce timer. -/
lemma toUInt32_sub_self (m : Nat) : toUInt32 ((m : Int) - (m : Int)) = 0 := by
  unfold toUInt32
  omega

/-- The elapsed time `D2Read` computes from wrapped ticks is the true elapsed
time when that is below `2^32`. -/
lemma toUInt32_sub_wrapped (c t : Nat) (hct : c ≤ t) (hd : t - c < 4294967296) :
    toUInt32 (((t % 4294967296 : Nat) : Int) - ((c % 4294967296 : Nat) : Int)) = t - c := by
  unfold toUInt32
  omega

/-- A flapping sequence leaves `inputInterrupts` as it was, at every step. -/
lemma D2ReadRun_flapping (evs : List (Bool × Nat)) :
    ∀ (s : State) (lastChange : Option Nat),
      s.lastDebounceTime = lastChange.map (fun c => c % 4294967296) →
      flapping s.lastState lastChange evs = true →
      ∀ s' ∈ D2ReadRun s evs, s'.inputInterrupts = s.inputInterrupts := by
  induction evs with
  | nil =>
    intro s lastChange _ _ s' hs'
    simp [D2ReadRun] at hs'
  | cons ev rest ih =>
    obtain ⟨raw, tick⟩ := ev
    intro s lastChange hc hf s' hs'
    -- the ghost state after this invocation, and that this invocation commits nothing
    have step : ∃ lc' : Option Nat,
        (D2Read raw (tick % 4294967296) s).lastDebounceTime
          = lc'.map (fun c => c % 4294967296) ∧
        flapping raw lc' rest = true ∧
        (D2Read raw (tick % 4294967296) s).inputInterrupts = s.inputInterrupts := by
      cases lastChange with
      | none =>
        simp only [Option.map_none'] at hc
        refine ⟨some tick, ?_, ?_, ?_⟩
        · rw [D2Read_lastDebounceTime, hc]
          simp
        · simpa [flapping] using hf
        · apply D2Read_inputInterrupts_of_recent
          rw [hc]
          simp only [Option.getD_none, ite_self, toUInt32_sub_self]
          exact Nat.zero_le _
      | some c =>
        simp only [Option.map_some'] at hc
        by_cases hch : (raw != s.lastState) = true
        · refine ⟨some tick, ?_, ?_, ?_⟩
          · rw [D2Read_lastDebounceTime, if_pos hch]
            rfl
          · simpa [flapping, hch] using hf
          · apply D2Read_inputInterrupts_of_recent
            rw [if_pos hch, toUInt32_sub_self]
            exact Nat.zero_le _
        · simp only [flapping, hch, Bool.false_eq_true, if_false, Bool.and_eq_true,
            decide_eq_true_eq] at hf
          obtain ⟨⟨hct, hle⟩, hrest⟩ := hf
          have hle' : tick - c ≤ 50 := hle
          refine ⟨some c, ?_, hrest, ?_⟩
          · rw [D2Read_lastDebounceTime, if_neg hch, hc]
            rfl
          · apply D2Read_inputInterrupts_of_recent
            rw [if_neg hch, hc]
            simp only [Option.getD_some]
            rw [toUInt32_sub_wrapped c tick hct (by omega)]
            exact hle
    obtain ⟨lc', hc', hf', hkeep⟩ := step
    simp only [D2ReadRun, List.mem_cons] at hs'
    rcases hs' with rfl | hs'
    · exact hkeep
    · have := ih (D2Read raw (tick % 4294967296) s) lc' hc'
        (by rw [D2Read_lastState]; exact hf') s' hs'
      rw [this, hkeep]

/-- C10: along every sequence of `D2Read` invocations in which each invocation
either reads a raw value different from that of the previous invocation or
runs at most `debounce` (50) ticks after the most recent invocation at which
the raw value changed, `inputInterrupts[0].pinState` and
`inputInterrupts[0].stateTransmitted` keep their values after every
invocation, also when the tick counter wraps in between. -/
theorem D2Read_flapping_never_commits (s : State) (lastChange : Option Nat)
    (evs : List (Bool × Nat))
    (hc : s.lastDebounceTime = lastChange.map (fun c => c % 4294967296))
    (hf : flapping s.lastState lastChange evs = true) :
    ∀ s' ∈ D2ReadRun s evs,
      (s'.inputInterrupts 0).pinState = (s.inputInterrupts 0).pinState ∧
      (s'.inputInterrupts 0).stateTransmitted = (s.inputInterrupts 0).stateTransmitted := by
  intro s' hs'
  rw [D2ReadRun_flapping evs s lastChange hc hf s' hs']
  exact ⟨rfl, rfl⟩

/-- Witness for C10: the five readings of `flappingExample` from the boot
values, the last two on either side of the tick counter's wrap. -/
theorem D2Read_flapping_never_commits_witness :
    bootState.lastDebounceTime = (none : Option Nat).map (fun c => c % 4294967296) ∧
    flapping bootState.lastState none flappingExample = true ∧
    ∀ s' ∈ D2ReadRun bootState flappingExample,
      (s'.inputInterrupts 0).pinState = (bootState.inputInterrupts 0).pinState ∧
      (s'.inputInterrupts 0).stateTransmitted
        = (bootState.inputInterrupts 0).stateTransmitted :=
  ⟨rfl, by decide,
   D2Read_flapping_never_commits bootState none flappingExample rfl (by decide)⟩

/-- `D2Read` commits the raw value when it equals the previous reading, differs
from the stable state and more than `debounce` ticks passed since the debounce
timer was restarted. -/
lemma D2Read_inputInterrupts_of_elapsed (raw : Bool) (millis c : Nat) (s : State)
    (hs : s.lastState = raw) (hl : s.lastDebounceTime = some c)
    (he : toUInt32 ((millis : Int) - (c : Int)) > debounce)
    (hv : raw ≠ (s.inputInterrupts 0).pinState) :
    (D2Read raw millis s).inputInterrupts =
      Function.update s.inputInterrupts 0
        { (s.inputInterrupts 0) with pinState := raw, stateTransmitted := false } := by
  unfold D2Read
  simp only [hs, hl, bne_self_eq_false, Bool.false_eq_true, if_false, Option.getD_some]
  rw [if_pos he, if_pos (by simpa using hv)]

/-- C11: when `D2Read` recorded a raw change at tick `t`
(`lastDebounceTime = t`, `lastState = v`) and next runs at tick
`(t + debounce + 1) mod 2^32` reading the same raw value `v`, different from
`inputInterrupts[0].pinState`, it sets `inputInterrupts[0].pinState = v` and
clears `inputInterrupts[0].stateTransmitted`, also across a wrap of the tick
counter. -/
theorem D2Read_commits_after_debounce (s : State) (t : Nat) (v : Bool)
    (hl : s.lastDebounceTime = some t) (hs : s.lastState = v)
    (hv : v ≠ (s.inputInterrupts 0).pinState) :
    ((D2Read v ((t + debounce + 1) % 4294967296) s).inputInterrupts 0).pinState = v ∧
    ((D2Read v ((t + debounce + 1) % 4294967296) s).inputInterrupts 0).stateTransmitted
      = false := by
  have he : toUInt32 ((((t + debounce + 1) % 4294967296 : Nat) : Int) - (t : Int))
      > debounce := by
    unfold toUInt32 debounce
    omega
  rw [D2Read_inputInterrupts_of_elapsed v _ t s hs hl he hv]
  simp

/-- Witness for C11: the raw change recorded at tick `2^32 - 6`, the next
reading 51 ticks later, after the wrap. -/
theorem D2Read_commits_after_debounce_witness :
    heldHighState.lastDebounceTime = some 4294967290 ∧
    heldHighState.lastState = true ∧
    true ≠ (heldHighState.inputInterrupts 0).pinState ∧
    (((D2Read true ((4294967290 + debounce + 1) % 4294967296)
        heldHighState).inputInterrupts 0).pinState = true ∧
     ((D2Read true ((4294967290 + debounce + 1) % 4294967296)
        heldHighState).inputInterrupts 0).stateTransmitted = false) :=
  ⟨by decide, by decide, by decide,
   D2Read_commits_after_debounce heldHighState 4294967290 true (by decide) (by decide)
     (by decide)⟩

/-- C12 (counterexample): the raw value changed to high at tick 100 while the
stable state is low; `D2Read` invoked at exactly tick `100 + debounce`, reading
high again, leaves `inputInterrupts[0].pinState` low. -/
theorem D2Read_tie_example :
    changedAt100State.lastDebounceTime = some 100 ∧
    changedAt100State.lastState = true ∧
    (changedAt100State.inputInterrupts 0).pinState = false ∧
    ((D2Read true (100 + debounce) changedAt100State).inputInterrupts 0).pinState
      = false := by
  decide

/-- C12 (amended): a debounce tie is not reached. When the raw value last
changed at tick `t` and `D2Read` runs at exactly tick `(t + debounce) mod 2^32`
reading the same raw value, `inputInterrupts` is left as it was:
`inputInterrupts[0].pinState` and `inputInterrupts[0].stateTransmitted` keep
their values. -/
theorem D2Read_tie_not_reached (s : State) (t : Nat) (v : Bool)
    (hl : s.lastDebounceTime = some t) (hs : s.lastState = v) :
    (D2Read v ((t + debounce) % 4294967296) s).inputInterrupts = s.inputInterrupts ∧
    ((D2Read v ((t + debounce) % 4294967296) s).inputInterrupts 0).pinState
      = (s.inputInterrupts 0).pinState ∧
    ((D2Read v ((t + debounce) % 4294967296) s).inputInterrupts 0).stateTransmitted
      = (s.inputInterrupts 0).stateTransmitted := by
  have keep : (D2Read v ((t + debounce) % 4294967296) s).inputInterrupts
      = s.inputInterrupts := by
    apply D2Read_inputInterrupts_of_recent
    simp only [hs, hl, bne_self_eq_false, Bool.false_eq_true, if_false, Option.getD_some]
    unfold toUInt32 debounce
    omega
  rw [keep]
  exact ⟨rfl, rfl, rfl⟩

/-- Witness for C12 (amended): the raw change recorded at tick `2^32 - 6`, the
next reading exactly `debounce` ticks later, after the wrap. -/
theorem D2Read_tie_not_reached_witness :
    heldHighState.lastDebounceTime = some 4294967290 ∧
    heldHighState.lastState = true ∧
    ((D2Read true ((4294967290 + debounce) % 4294967296) heldHighState).inputInterrupts
      = heldHighState.inputInterrupts ∧
     ((D2Read true ((4294967290 + debounce) % 4294967296)
        heldHighState).inputInterrupts 0).pinState
      = (heldHighState.inputInterrupts 0).pinState ∧
     ((D2Read true ((4294967290 + debounce) % 4294967296)
        heldHighState).inputInterrupts 0).stateTransmitted
      = (heldHighState.inputInterrupts 0).stateTransmitted) :=
  ⟨by decide, by decide,
   D2Read_tie_not_reached heldHighState 4294967290 true (by decide) (by decide)⟩

/-- C16: `D2Read` leaves `radioAction`, `transmittedFlag`, `receivedFlag`,
`enableInterrupt`, `transmissionState`, the channels `inputInterrupts[1]` and
`inputInterrupts[2]`, the `interruptAttached` flag of channel 0, the timers of
`loop` and the radio and `Serial` records unchanged; of channel 0 it can
change only `pinState` and `stateTransmitted`, and `stateTransmitted` is only
ever cleared: when it is set afterwards it was set before. -/
theorem D2Read_frame (raw : Bool) (millis : Nat) (s : State) :
    (D2Read raw millis s).radioAction = s.radioAction ∧
    (D2Read raw millis s).transmittedFlag = s.transmittedFlag ∧
    (D2Read raw millis s).receivedFlag = s.receivedFlag ∧
    (D2Read raw millis s).enableInterrupt = s.enableInterrupt ∧
    (D2Read raw millis s).transmissionState = s.transmissionState ∧
    (D2Read raw millis s).inputInterrupts 1 = s.inputInterrupts 1 ∧
    (D2Read raw millis s).inputInterrupts 2 = s.inputInterrupts 2 ∧
    ((D2Read raw millis s).inputInterrupts 0).interruptAttached
      = (s.inputInterrupts 0).interruptAttached ∧
    (D2Read raw millis s).state_minute = s.state_minute ∧
    (D2Read raw millis s).state_second = s.state_second ∧
    (D2Read raw millis s).state_100_msec = s.state_100_msec ∧
    (D2Read raw millis s).radioLog = s.radioLog ∧
    (D2Read raw millis s).serial = s.serial ∧
    (((D2Read raw millis s).inputInterrupts 0).stateTransmitted = true →
      (s.inputInterrupts 0).stateTransmitted = true) := by
  unfold D2Read
  simp only
  split_ifs <;> simp

/-- Witness for C16: a reading that commits a new stable state, 51 ticks after
the recorded change and after the wrap of the tick counter, leaves the radio
state untouched. -/
theorem D2Read_frame_witness :
    ((D2Read true 45 heldHighState).inputInterrupts 0).pinState = true ∧
    (D2Read true 45 heldHighState).radioAction = heldHighState.radioAction :=
  ⟨by decide, (D2Read_frame true 45 heldHighState).1⟩

/-! ### Packet dispatcher -/

/-- C15: with `transmittedFlag` set, `checkLoraSend` ends with
`transmittedFlag == false`, `radioAction == RADIO_OFF` and the gate
`enableInterrupt` open, and leaves `receivedFlag`, `transmissionState`, all
pin channels and the record of radio commands (no retransmit) unchanged,
whatever the result code of the prior send; with `transmittedFlag` clear it
returns the state it was given. -/
theorem checkLoraSend_consumes (s : State) :
    (s.transmittedFlag = true →
      (checkLoraSend s).transmittedFlag = false ∧
      (checkLoraSend s).radioAction = RADIO_OFF ∧
      (checkLoraSend s).enableInterrupt = true ∧
      (checkLoraSend s).receivedFlag = s.receivedFlag ∧
      (checkLoraSend s).transmissionState = s.transmissionState ∧
      (checkLoraSend s).inputInterrupts = s.inputInterrupts ∧
      (checkLoraSend s).radioLog = s.radioLog) ∧
    (s.transmittedFlag = false → checkLoraSend s = s) := by
  unfold checkLoraSend
  cases hf : s.transmittedFlag
  · simp
  · simp only [if_true]
    split_ifs <;> simp [State.out]

/-- Witness for C15: a completed transmit whose send had failed with code
`-1`, and a state with no completion pending. -/
theorem checkLoraSend_consumes_witness :
    ((checkLoraSend { setFlag transmittingState with transmissionState := -1 }).transmittedFlag
        = false ∧
      (checkLoraSend { setFlag transmittingState with transmissionState := -1 }).radioAction
        = RADIO_OFF ∧
      (checkLoraSend { setFlag transmittingState with transmissionState := -1 }).radioLog
        = transmittingState.radioLog) ∧
    checkLoraSend midReceiveState = midReceiveState :=
  ⟨⟨((checkLoraSend_consumes
        { setFlag transmittingState with transmissionState := -1 }).1 (by decide)).1,
    ((checkLoraSend_consumes
        { setFlag transmittingState with transmissionState := -1 }).1 (by decide)).2.1,
    ((checkLoraSend_consumes
        { setFlag transmittingState with transmissionState := -1 }).1
          (by decide)).2.2.2.2.2.2⟩,
   (checkLoraSend_consumes midReceiveState).2 (by decide)⟩

/-! ### Re-arming bounds -/

/-- C20: re-arming a timer that is reached (lateness `e < 2^31`, clock at
`(timer + e) mod 2^32`) with `0 < step < 2^31` gives a deadline at most `step`
ticks ahead of the clock, `(new - now) mod 2^32 <= step`, and the deadline is
the clock reading itself, so that `TimeReached` holds again at once, exactly
when `e = 2 * step`. -/
theorem setNextTimeInterval_within_period (timer step e : Nat)
    (hs0 : 0 < step) (hs : step < 2147483648) (he : e < 2147483648) :
    toUInt32 ((SetNextTimeInterval ((timer + e) % 4294967296) timer step : Int)
      - (((timer + e) % 4294967296 : Nat) : Int)) ≤ step ∧
    (SetNextTimeInterval ((timer + e) % 4294967296) timer step
        = (timer + e) % 4294967296 ↔ e = 2 * step) ∧
    (e = 2 * step →
      TimeReached ((timer + e) % 4294967296)
        (SetNextTimeInterval ((timer + e) % 4294967296) timer step) = true) := by
  have hp := timeDifference_late timer step e (by omega) (by omega)
  have hval : SetNextTimeInterval ((timer + e) % 4294967296) timer step =
      if e < step then (timer + step) % 4294967296
      else if 2 * step < e then ((timer + e) % 4294967296 + step) % 4294967296
      else ((timer + e) % 4294967296 + (2 * step - e)) % 4294967296 := by
    rw [setNextTimeInterval_cases, hp]
    by_cases h1 : e < step
    · rw [if_pos (by omega), if_pos h1]
    · rw [if_neg (by omega), if_neg h1]
      by_cases h2 : 2 * step < e
      · rw [if_pos (by omega), if_pos h2]
        unfold toUInt32
        omega
      · rw [if_neg (by omega), if_neg h2]
        unfold toUInt32
        omega
  have hiff : SetNextTimeInterval ((timer + e) % 4294967296) timer step
      = (timer + e) % 4294967296 ↔ e = 2 * step := by
    rw [hval]
    split_ifs <;> omega
  refine ⟨?_, hiff, ?_⟩
  · rw [hval]
    unfold toUInt32
    split_ifs <;> omega
  · intro h2
    rw [hiff.mpr h2]
    unfold TimeReached TimePassedSince TimeDifference toInt32 toUInt32
    simp

/-- Witness for C20: period 1000, deadline 0, clock 2000: the new deadline is
the clock reading. -/
theorem setNextTimeInterval_within_period_witness :
    0 < 1000 ∧ 1000 < 2147483648 ∧ 2000 < 2147483648 ∧
    (toUInt32 ((SetNextTimeInterval ((0 + 2000) % 4294967296) 0 1000 : Int)
      - (((0 + 2000) % 4294967296 : Nat) : Int)) ≤ 1000 ∧
    (SetNextTimeInterval ((0 + 2000) % 4294967296) 0 1000
        = (0 + 2000) % 4294967296 ↔ 2000 = 2 * 1000) ∧
    (2000 = 2 * 1000 →
      TimeReached ((0 + 2000) % 4294967296)
        (SetNextTimeInterval ((0 + 2000) % 4294967296) 0 1000) = true)) :=
  ⟨by decide, by decide, by decide,
   setNextTimeInterval_within_period 0 1000 2000 (by decide) (by decide) (by decide)⟩

/-- An iteration of `sendPinState` for a pin that is not pending does
nothing. -/
lemma sendPinStateStep_skip (radio : Radio) (s : State) (i : Fin 3)
    (h : pinPending s i = false) : sendPinStateStep radio s i = s := by
  unfold pinPending at h
  unfold sendPinStateStep
  rw [if_neg (by simp [h])]

/-- An iteration of `sendPinState` while a transmit is outstanding does
nothing. -/
lemma sendPinStateStep_busy (radio : Radio) (s : State) (i : Fin 3)
    (h : s.radioAction = RADIO_TX) : sendPinStateStep radio s i = s := by
  unfold sendPinStateStep loraSend
  simp only [h, if_true]
  split_ifs <;> first | rfl | contradiction

/-- An iteration of `sendPinState` for a pending pin while no transmit is
outstanding: one transmit is started and the pin is marked. -/
lemma sendPinStateStep_send (radio : Radio) (s : State) (i : Fin 3)
    (hp : pinPending s i = true) (hfree : s.radioAction ≠ RADIO_TX) :
    (sendPinStateStep radio s i).radioLog
      = s.radioLog ++ [.startTransmit (pinMessage i (s.inputInterrupts i).pinState)] ∧
    (sendPinStateStep radio s i).inputInterrupts
      = Function.update s.inputInterrupts i
          { (s.inputInterrupts i) with stateTransmitted := true } ∧
    (sendPinStateStep radio s i).radioAction = RADIO_TX := by
  unfold pinPending at hp
  unfold sendPinStateStep loraSend
  simp only [hp, if_true, if_neg hfree]
  simp [State.cmd, State.out]

/-- The three iterations of `sendPinState`. -/
lemma sendPinState_unfold (radio : Radio) (s : State) :
    sendPinState radio s =
      sendPinStateStep radio
        (sendPinStateStep radio (sendPinStateStep radio s 0) 1) 2 := rfl

/-- `sendPinState` with a pending pin `i`, no pending pin below it and no
transmit outstanding is the single iteration for `i`. -/
lemma sendPinState_lowest (radio : Radio) (s : State) (i : Fin 3)
    (hfree : s.radioAction ≠ RADIO_TX) (hp : pinPending s i = true)
    (hlow : ∀ j : Fin 3, j < i → pinPending s j = false) :
    sendPinState radio s = sendPinStateStep radio s i := by
  have htx := (sendPinStateStep_send radio s i hp hfree).2.2
  rw [sendPinState_unfold]
  fin_cases i
  · simp only [Fin.zero_eta] at htx ⊢
    rw [sendPinStateStep_busy radio _ 1 htx, sendPinStateStep_busy radio _ 2 htx]
  · simp only [Fin.mk_one] at htx ⊢
    rw [sendPinStateStep_skip radio s 0 (hlow 0 (by decide)),
      sendPinStateStep_busy radio _ 2 htx]
  · have h2 : ((⟨2, by decide⟩ : Fin 3)) = 2 := rfl
    simp only [h2] at htx ⊢
    rw [sendPinStateStep_skip radio s 0 (hlow 0 (by decide)),
      sendPinStateStep_skip radio s 1 (hlow 1 (by decide))]

/-- `sendPinState` with no pending pin does nothing. -/
lemma sendPinState_none_pending (radio : Radio) (s : State)
    (h : ∀ i : Fin 3, pinPending s i = false) : sendPinState radio s = s := by
  rw [sendPinState_unfold, sendPinStateStep_skip radio s 0 (h 0),
    sendPinStateStep_skip radio s 1 (h 1), sendPinStateStep_skip radio s 2 (h 2)]

/-- `sendPinState` while a transmit is outstanding does nothing. -/
lemma sendPinState_busy (radio : Radio) (s : State) (h : s.radioAction = RADIO_TX) :
    sendPinState radio s = s := by
  rw [sendPinState_unfold, sendPinStateStep_busy radio s 0 h,
    sendPinStateStep_busy radio s 1 h, sendPinStateStep_busy radio s 2 h]

/-- The payload built for pin `i` in state `pinState`, character for
character: `Pin`, the index in decimal, `State`, then `1` for high and `0` for
low. -/
lemma pinMessage_literal (i : Fin 3) (pinState : Bool) :
    pinMessage i pinState =
      if i = 0 then (if pinState then "Pin0State1" else "Pin0State0")
      else if i = 1 then (if pinState then "Pin1State1" else "Pin1State0")
      else (if pinState then "Pin2State1" else "Pin2State0") := by
  fin_cases i <;> cases pinState <;> decide

/-- C14: with no transmit outstanding on entry (`radioAction != RADIO_TX`) and
`i` the lowest-index pin with `interruptAttached && !stateTransmitted`,
`sendPinState` starts exactly one transmit, whose payload is the text
`Pin<i>State<pinState>` of pin `i` (`Pin0State0`, `Pin0State1`, `Pin1State0`,
`Pin1State1`, `Pin2State0` or `Pin2State1`), sets `stateTransmitted` of pin
`i` only, leaves every other pin channel unchanged and ends with
`radioAction == RADIO_TX`; when no pin is pending it returns the state it was
given. -/
theorem sendPinState_sends_lowest (radio : Radio) (s : State) :
    (∀ i : Fin 3, s.radioAction ≠ RADIO_TX → pinPending s i = true →
      (∀ j : Fin 3, j < i → pinPending s j = false) →
      (sendPinState radio s).radioLog
        = s.radioLog ++ [.startTransmit
            (if i = 0 then
              (if (s.inputInterrupts i).pinState then "Pin0State1" else "Pin0State0")
            else if i = 1 then
              (if (s.inputInterrupts i).pinState then "Pin1State1" else "Pin1State0")
            else
              (if (s.inputInterrupts i).pinState then "Pin2State1" else "Pin2State0"))] ∧
      (sendPinState radio s).inputInterrupts
        = Function.update s.inputInterrupts i
            { (s.inputInterrupts i) with stateTransmitted := true } ∧
      (sendPinState radio s).radioAction = RADIO_TX) ∧
    ((∀ i : Fin 3, pinPending s i = false) → sendPinState radio s = s) := by
  refine ⟨?_, sendPinState_none_pending radio s⟩
  intro i hfree hp hlow
  rw [sendPinState_lowest radio s i hfree hp hlow, ← pinMessage_literal]
  exact sendPinStateStep_send radio s i hp hfree

/-- Witness for C14: pins 1 and 2 pending (pin 1 low) while a receive is
outstanding: one transmit, `Pin1State0`, only pin 1 is marked; pin 0 pending
and high with nothing outstanding: one transmit, `Pin0State1`; pin 2 pending
and high after pin 1 was reported: one transmit, `Pin2State1`. -/
theorem sendPinState_sends_lowest_witness :
    ((sendPinState idealRadio twoPinsPendingState).radioLog
        = twoPinsPendingState.radioLog ++ [.startTransmit "Pin1State0"] ∧
      (sendPinState idealRadio twoPinsPendingState).inputInterrupts
        = Function.update twoPinsPendingState.inputInterrupts 1
            { (twoPinsPendingState.inputInterrupts 1) with stateTransmitted := true } ∧
      (sendPinState idealRadio twoPinsPendingState).radioAction = RADIO_TX) ∧
    (sendPinState idealRadio pinChangedIdleState).radioLog
      = pinChangedIdleState.radioLog ++ [.startTransmit "Pin0State1"] ∧
    (sendPinState idealRadio pinTwoPendingState).radioLog
      = pinTwoPendingState.radioLog ++ [.startTransmit "Pin2State1"] := by
  have h1 := (sendPinState_sends_lowest idealRadio twoPinsPendingState).1 1
    (by decide) (by decide) (by decide)
  have h0 := (sendPinState_sends_lowest idealRadio pinChangedIdleState).1 0
    (by decide) (by decide) (by decide)
  have h2 := (sendPinState_sends_lowest idealRadio pinTwoPendingState).1 2
    (by decide) (by decide) (by decide)
  exact ⟨h1, h0.1, h2.1⟩

/-- `loraSend` does not touch the pin channels. -/
lemma loraSend_inputInterrupts (radio : Radio) (msg : String) (s : State) :
    (loraSend radio msg s).2.inputInterrupts = s.inputInterrupts := by
  unfold loraSend
  split_ifs <;> simp [State.cmd, State.out]

/-- The iteration for pin `j` leaves the channel of another pin `i` alone. -/
lemma sendPinStateStep_other (radio : Radio) (s : State) (i j : Fin 3) (h : i ≠ j) :
    (sendPinStateStep radio s j).inputInterrupts i = s.inputInterrupts i := by
  unfold sendPinStateStep
  simp only
  split_ifs
  · simp [Function.update_noteq h, loraSend_inputInterrupts]
  · simp [loraSend_inputInterrupts]
  · rfl

/-- When the iteration for pin `i` turns `stateTransmitted` from false to true,
the pin was pending and the `loraSend` call of that iteration returned true. -/
lemma sendPinStateStep_marks (radio : Radio) (s : State) (i : Fin 3)
    (h0 : (s.inputInterrupts i).stateTransmitted = false)
    (h1 : ((sendPinStateStep radio s i).inputInterrupts i).stateTransmitted = true) :
    pinPending s i = true ∧
    (loraSend radio (pinMessage i (s.inputInterrupts i).pinState) s).1 = true := by
  unfold sendPinStateStep at h1
  simp only at h1
  split_ifs at h1 with hc hr
  · exact ⟨hc, hr⟩
  · rw [loraSend_inputInterrupts, h0] at h1
    exact absurd h1 (by decide)
  · rw [h0] at h1
    exact absurd h1 (by decide)

/-- The channel of pin `i` is decided by iteration `i` alone: the other
iterations of `sendPinState` leave it as it is. -/
lemma sendPinState_channel (radio : Radio) (s : State) (i : Fin 3) :
    (sendPinStateBefore radio s i).inputInterrupts i = s.inputInterrupts i ∧
    (sendPinState radio s).inputInterrupts i
      = (sendPinStateStep radio (sendPinStateBefore radio s i) i).inputInterrupts i := by
  rw [sendPinState_unfold]
  fin_cases i
  · refine ⟨rfl, ?_⟩
    show (sendPinStateStep radio (sendPinStateStep radio (sendPinStateStep radio s 0) 1)
      2).inputInterrupts 0 = (sendPinStateStep radio s 0).inputInterrupts 0
    rw [sendPinStateStep_other radio _ 0 2 (by decide),
      sendPinStateStep_other radio _ 0 1 (by decide)]
  · refine ⟨?_, ?_⟩
    · show (sendPinStateStep radio s 0).inputInterrupts 1 = s.inputInterrupts 1
      rw [sendPinStateStep_other radio _ 1 0 (by decide)]
    · show (sendPinStateStep radio (sendPinStateStep radio (sendPinStateStep radio s 0) 1)
        2).inputInterrupts 1
          = (sendPinStateStep radio (sendPinStateStep radio s 0) 1).inputInterrupts 1
      rw [sendPinStateStep_other radio _ 1 2 (by decide)]
  · refine ⟨?_, rfl⟩
    show (sendPinStateStep radio (sendPinStateStep radio s 0) 1).inputInterrupts 2
      = s.inputInterrupts 2
    rw [sendPinStateStep_other radio _ 2 1 (by decide),
      sendPinStateStep_other radio _ 2 0 (by decide)]

/-- C13: with a transmit outstanding on entry (`radioAction == RADIO_TX`)
`sendPinState` returns the state it was given, so every pin's
`stateTransmitted` and all other state is unchanged; in every state, a pin's
`stateTransmitted` goes from false to true during `sendPinState` only if, in
the iteration for that pin, the pin was pending and its `loraSend` call
returned true. -/
theorem sendPinState_marks_only_accepted (radio : Radio) (s : State) :
    (s.radioAction = RADIO_TX → sendPinState radio s = s) ∧
    (∀ i : Fin 3, (s.inputInterrupts i).stateTransmitted = false →
      ((sendPinState radio s).inputInterrupts i).stateTransmitted = true →
      pinPending (sendPinStateBefore radio s i) i = true ∧
      (loraSend radio
        (pinMessage i ((sendPinStateBefore radio s i).inputInterrupts i).pinState)
        (sendPinStateBefore radio s i)).1 = true) := by
  refine ⟨sendPinState_busy radio s, ?_⟩
  intro i h0 h1
  obtain ⟨hb, hf⟩ := sendPinState_channel radio s i
  rw [hf] at h1
  exact sendPinStateStep_marks radio _ i (by rw [hb]; exact h0) h1

/-- Witness for C13: pins 1 and 2 pending; with a transmit outstanding nothing
changes, and with a receive outstanding pin 1 is marked by an accepted
`loraSend`. -/
theorem sendPinState_marks_only_accepted_witness :
    sendPinState idealRadio { twoPinsPendingState with radioAction := RADIO_TX }
      = { twoPinsPendingState with radioAction := RADIO_TX } ∧
    ((sendPinState idealRadio twoPinsPendingState).inputInterrupts 1).stateTransmitted
      = true ∧
    (loraSend idealRadio
      (pinMessage 1
        ((sendPinStateBefore idealRadio twoPinsPendingState 1).inputInterrupts 1).pinState)
      (sendPinStateBefore idealRadio twoPinsPendingState 1)).1 = true :=
  ⟨(sendPinState_marks_only_accepted idealRadio
      { twoPinsPendingState with radioAction := RADIO_TX }).1 (by decide),
   by decide,
   ((sendPinState_marks_only_accepted idealRadio twoPinsPendingState).2 1 (by decide)
      (by decide)).2⟩

/-! ### Interrupt gate -/

/-- `checkLoraSend` returns with the gate open when it was open on entry. -/
lemma checkLoraSend_gate (s : State) (h : s.enableInterrupt = true) :
    (checkLoraSend s).enableInterrupt = true := by
  unfold checkLoraSend
  split_ifs <;> simp [h]

/-- `checkLoraRecv` returns with the gate open when it was open on entry. -/
lemma checkLoraRecv_gate (radio : Radio) (s : State) (h : s.enableInterrupt = true) :
    (checkLoraRecv radio s).enableInterrupt = true := by
  unfold checkLoraRecv
  split_ifs <;> simp [h]

/-- `loraSend` returns with the gate open when it was open on entry. -/
lemma loraSend_gate (radio : Radio) (msg : String) (s : State)
    (h : s.enableInterrupt = true) :
    (loraSend radio msg s).2.enableInterrupt = true := by
  unfold loraSend
  split_ifs <;> simp [h]

/-- An iteration of `sendPinState` keeps the gate open. -/
lemma sendPinStateStep_gate (radio : Radio) (s : State) (i : Fin 3)
    (h : s.enableInterrupt = true) :
    (sendPinStateStep radio s i).enableInterrupt = true := by
  unfold sendPinStateStep
  simp only
  split_ifs
  · exact loraSend_gate radio _ s h
  · exact loraSend_gate radio _ s h
  · exact h

/-- `sendPinState` returns with the gate open when it was open on entry. -/
lemma sendPinState_gate (radio : Radio) (s : State) (h : s.enableInterrupt = true) :
    (sendPinState radio s).enableInterrupt = true := by
  rw [sendPinState_unfold]
  exact sendPinStateStep_gate radio _ 2
    (sendPinStateStep_gate radio _ 1 (sendPinStateStep_gate radio s 0 h))

/-- `timeLoop` returns with the gate open when it was open on entry. -/
lemma timeLoop_gate (radio : Radio) (action : TimeAwareActions) (s : State)
    (h : s.enableInterrupt = true) :
    (timeLoop radio action s).enableInterrupt = true := by
  cases action
  · exact loraSend_gate radio "SYN" s h
  · exact h
  · exact sendPinState_gate radio _ (checkLoraRecv_gate radio _ (checkLoraSend_gate s h))

/-- `setFlag` does not assign the gate. -/
lemma setFlag_gate (s : State) (h : s.enableInterrupt = true) :
    (setFlag s).enableInterrupt = true := by
  unfold setFlag
  simp only
  split_ifs <;> exact h

/-- `D2Read` does not assign the gate. -/
lemma D2Read_gate_eq (raw : Bool) (millis : Nat) (s : State) :
    (D2Read raw millis s).enableInterrupt = s.enableInterrupt := by
  unfold D2Read
  simp only
  split_ifs <;> rfl

/-- A pass of `loop` is its five statements in sequence. -/
lemma loop_stages (radio : Radio) (millis : Nat) (s : State) :
    loop radio millis s =
      loop100Msec radio millis (loopSecond radio millis
        (loopMinute radio millis (loopAttach (loopListen s)))) := rfl

/-- A pass of `loop` returns with the gate open when it was open on entry. -/
lemma loop_gate (radio : Radio) (millis : Nat) (s : State)
    (h : s.enableInterrupt = true) :
    (loop radio millis s).enableInterrupt = true := by
  have h1 : (loopAttach (loopListen s)).enableInterrupt = true := by
    unfold loopAttach loopListen
    simp only
    split_ifs <;> simp [State.cmd, h]
  have h2 : (loopMinute radio millis (loopAttach (loopListen s))).enableInterrupt
      = true := by
    unfold loopMinute
    split_ifs
    · exact timeLoop_gate radio _ _ h1
    · exact h1
  have h3 : (loopSecond radio millis
      (loopMinute radio millis (loopAttach (loopListen s)))).enableInterrupt = true := by
    unfold loopSecond
    split_ifs
    · exact timeLoop_gate radio _ _ h2
    · exact h2
  rw [loop_stages]
  unfold loop100Msec
  split_ifs
  · exact timeLoop_gate radio _ _ h3
  · exact h3

/-- Every call keeps the gate open. -/
lemma perform_gate (radio : Radio) (s : State) (c : Call)
    (h : s.enableInterrupt = true) : (perform radio s c).enableInterrupt = true := by
  cases c with
  | checkSend => exact checkLoraSend_gate s h
  | checkRecv => exact checkLoraRecv_gate radio s h
  | send msg => exact loraSend_gate radio msg s h
  | sendPins => exact sendPinState_gate radio s h
  | time action => exact timeLoop_gate radio action s h
  | pass millis => exact loop_gate radio millis s h
  | completion => exact setFlag_gate s h
  | pinChange raw millis => exact (D2Read_gate_eq raw millis s).trans h

/-- Every sequence of calls keeps the gate open. -/
lemma performAll_gate (radio : Radio) (calls : List Call) :
    ∀ s : State, s.enableInterrupt = true →
      (performAll radio s calls).enableInterrupt = true := by
  induction calls with
  | nil => intro s h; exact h
  | cons c rest ih =>
    intro s h
    exact ih (perform radio s c) (perform_gate radio s c h)

/-- C17: the open gate is an invariant. From a state with
`enableInterrupt == true`, each of `checkLoraSend`, `checkLoraRecv`,
`loraSend`, `sendPinState` and `timeLoop` returns with
`enableInterrupt == true`, for every value of the flags, the arbiter and the
radio result codes, and so does every sequence of calls of the operations, of
passes of `loop` and of the interrupt handlers; the initial values have the
gate open and, when `setup` succeeds, so has the state it returns. -/
theorem enableInterrupt_invariant (radio : Radio) (s : State)
    (h : s.enableInterrupt = true) :
    (checkLoraSend s).enableInterrupt = true ∧
    (checkLoraRecv radio s).enableInterrupt = true ∧
    (∀ msg : String, (loraSend radio msg s).2.enableInterrupt = true) ∧
    (sendPinState radio s).enableInterrupt = true ∧
    (∀ action : TimeAwareActions, (timeLoop radio action s).enableInterrupt = true) ∧
    (∀ calls : List Call, (performAll radio s calls).enableInterrupt = true) ∧
    bootState.enableInterrupt = true ∧
    (∀ s0 : State, setup radio bootState = some s0 → s0.enableInterrupt = true) := by
  refine ⟨checkLoraSend_gate s h, checkLoraRecv_gate radio s h,
    fun msg => loraSend_gate radio msg s h, sendPinState_gate radio s h,
    fun action => timeLoop_gate radio action s h,
    fun calls => performAll_gate radio calls s h, rfl, ?_⟩
  intro s0 hs0
  unfold setup at hs0
  simp only at hs0
  split_ifs at hs0
  simp only [Option.some.injEq] at hs0
  rw [← hs0]
  rfl

/-- Witness for C17: from the initial values, with a radio whose calls all
succeed. -/
theorem enableInterrupt_invariant_witness :
    bootState.enableInterrupt = true ∧
    (checkLoraSend bootState).enableInterrupt = true ∧
    (∀ calls : List Call, (performAll idealRadio bootState calls).enableInterrupt = true) :=
  ⟨by decide, (enableInterrupt_invariant idealRadio bootState (by decide)).1,
   (enableInterrupt_invariant idealRadio bootState (by decide)).2.2.2.2.2.1⟩

/-! ### One pass of `loop` -/

/-- `checkLoraRecv` with no pending `receivedFlag` is the identity. -/
lemma checkLoraRecv_idle (radio : Radio) (s : State) (h : s.receivedFlag = false) :
    checkLoraRecv radio s = s := by
  unfold checkLoraRecv
  simp [h]

/-- With no completion pending, the 100 ms task is `sendPinState`. -/
lemma timeLoop_100_idle (radio : Radio) (s : State)
    (ht : s.transmittedFlag = false) (hr : s.receivedFlag = false) :
    timeLoop radio FUNC_100_MSEC s = sendPinState radio s := by
  show sendPinState radio (checkLoraRecv radio (checkLoraSend s)) = sendPinState radio s
  rw [checkLoraSend_idle s ht, checkLoraRecv_idle radio s hr]

/-- The state after an accepted request. -/
lemma loraSend_accepted (radio : Radio) (msg : String) (s : State)
    (h : s.radioAction ≠ RADIO_TX) :
    (loraSend radio msg s).2 =
      { s with
        serial := s.serial ++ [.print "[RFM95] Sending packet ... "]
        radioAction := RADIO_TX
        radioLog := s.radioLog ++ [.startTransmit msg]
        transmissionState := radio.startTransmit s.radioLog msg
        enableInterrupt := true } := by
  unfold loraSend
  rw [if_neg h]
  rfl

/-- The second task only re-arms its timer. -/
lemma loopSecond_eq (radio : Radio) (millis : Nat) (s : State) :
    loopSecond radio millis s =
      { s with state_second :=
          if TimeReached millis s.state_second then
            SetNextTimeInterval millis s.state_second 1000
          else s.state_second } := by
  unfold loopSecond
  split_ifs <;> rfl

/-- While a transmit is outstanding and no completion is pending the 100 ms
task only re-arms its timer. -/
lemma loop100Msec_busy (radio : Radio) (millis : Nat) (s : State)
    (h : s.radioAction = RADIO_TX) (ht : s.transmittedFlag = false)
    (hr : s.receivedFlag = false) :
    loop100Msec radio millis s =
      { s with state_100_msec :=
          if TimeReached millis s.state_100_msec then
            SetNextTimeInterval millis s.state_100_msec 100
          else s.state_100_msec } := by
  unfold loop100Msec
  split_ifs
  · rw [timeLoop_100_idle radio, sendPinState_busy radio]
    · exact h
    · exact ht
    · exact hr
  · rfl

/-- Among pending pins there is one of lowest index. -/
lemma exists_lowest_pending (s : State) (h : ∃ i : Fin 3, pinPending s i = true) :
    ∃ i : Fin 3, pinPending s i = true ∧ ∀ j : Fin 3, j < i → pinPending s j = false := by
  obtain ⟨i, hi⟩ := h
  cases h0 : pinPending s 0
  · cases h1 : pinPending s 1
    · refine ⟨2, ?_, ?_⟩
      · fin_cases i
        · exact absurd hi (by simp [h0])
        · exact absurd hi (by simp [h1])
        · exact hi
      · intro j hj
        fin_cases j
        · exact h0
        · exact h1
        · exact absurd hj (by decide)
    · refine ⟨1, h1, ?_⟩
      intro j hj
      fin_cases j
      · exact h0
      · exact absurd hj (by decide)
      · exact absurd hj (by decide)
  · refine ⟨0, h0, ?_⟩
    intro j hj
    exact absurd hj (by simp)

/-- With a pin pending and no transmit outstanding, `sendPinState` starts one
transmit and ends with `radioAction == RADIO_TX`. -/
lemma sendPinState_some_pending (radio : Radio) (s : State)
    (hfree : s.radioAction ≠ RADIO_TX) (h : ∃ i : Fin 3, pinPending s i = true) :
    (sendPinState radio s).radioAction = RADIO_TX ∧
    ∃ msg : String, (sendPinState radio s).radioLog = s.radioLog ++ [.startTransmit msg] := by
  obtain ⟨i, hp, hlow⟩ := exists_lowest_pending s h
  rw [sendPinState_lowest radio s i hfree hp hlow]
  obtain ⟨hlog, _, htx⟩ := sendPinStateStep_send radio s i hp hfree
  exact ⟨htx, _, hlog⟩

/-- The listening step from `RADIO_OFF`. -/
lemma loopListen_off (s : State) (h : s.radioAction = RADIO_OFF) :
    loopListen s =
      { s with radioAction := RADIO_RX, radioLog := s.radioLog ++ [.startReceive] } := by
  unfold loopListen
  rw [if_pos h]
  rfl

/-- The attach step changes `inputInterrupts` only. -/
lemma loopAttach_frame (s : State) :
    loopAttach s = { s with inputInterrupts := (loopAttach s).inputInterrupts } := by
  unfold loopAttach
  split_ifs <;> rfl

/-- The attach step keeps a pending pin pending. -/
lemma loopAttach_pending (s : State) (i : Fin 3) (h : pinPending s i = true) :
    pinPending (loopAttach s) i = true := by
  unfold loopAttach
  split_ifs with hc
  · by_cases hi : i = 0
    · subst hi
      unfold pinPending at h
      simp only [Bool.and_eq_true] at h
      rw [h.1] at hc
      exact absurd hc (by decide)
    · unfold pinPending at h ⊢
      simp only [Function.update_noteq hi]
      exact h
  · exact h

/-- The second task leaves everything but its timer as it is. -/
lemma loopSecond_fields (radio : Radio) (now : Nat) (s : State) :
    (loopSecond radio now s).radioAction = s.radioAction ∧
    (loopSecond radio now s).radioLog = s.radioLog ∧
    (loopSecond radio now s).transmittedFlag = s.transmittedFlag ∧
    (loopSecond radio now s).receivedFlag = s.receivedFlag ∧
    (loopSecond radio now s).inputInterrupts = s.inputInterrupts ∧
    (loopSecond radio now s).state_100_msec = s.state_100_msec := by
  rw [loopSecond_eq]
  exact ⟨rfl, rfl, rfl, rfl, rfl, rfl⟩

/-- While a transmit is outstanding and no completion is pending the 100 ms
task leaves everything but its timer as it is. -/
lemma loop100Msec_busy_fields (radio : Radio) (now : Nat) (s : State)
    (h : s.radioAction = RADIO_TX) (ht : s.transmittedFlag = false)
    (hr : s.receivedFlag = false) :
    (loop100Msec radio now s).radioAction = s.radioAction ∧
    (loop100Msec radio now s).radioLog = s.radioLog ∧
    (loop100Msec radio now s).transmittedFlag = s.transmittedFlag ∧
    (loop100Msec radio now s).receivedFlag = s.receivedFlag ∧
    (loop100Msec radio now s).inputInterrupts = s.inputInterrupts := by
  rw [loop100Msec_busy radio now s h ht hr]
  exact ⟨rfl, rfl, rfl, rfl, rfl⟩

/-- When the 100 ms task is due and no completion is pending, it re-arms its
timer and runs `sendPinState`. -/
lemma loop100Msec_due_idle (radio : Radio) (now : Nat) (s : State)
    (hdue : TimeReached now s.state_100_msec = true)
    (ht : s.transmittedFlag = false) (hr : s.receivedFlag = false) :
    loop100Msec radio now s =
      sendPinState radio
        { s with state_100_msec := SetNextTimeInterval now s.state_100_msec 100 } := by
  unfold loop100Msec
  rw [if_pos hdue, timeLoop_100_idle radio]
  · exact ht
  · exact hr

/-- After the listening and attach steps, a pass in which a send is requested
(minute task due, or 100 ms task due with a pin pending) and no completion is
pending starts one transmit and ends with `radioAction == RADIO_TX`. -/
lemma loop_tasks_send (radio : Radio) (now : Nat) (s : State)
    (hfree : s.radioAction ≠ RADIO_TX)
    (ht : s.transmittedFlag = false) (hr : s.receivedFlag = false)
    (hreq : TimeReached now s.state_minute = true ∨
      (TimeReached now s.state_100_msec = true ∧ ∃ i : Fin 3, pinPending s i = true)) :
    (loop100Msec radio now (loopSecond radio now (loopMinute radio now s))).radioAction
      = RADIO_TX ∧
    ∃ msg : String,
      (loop100Msec radio now (loopSecond radio now (loopMinute radio now s))).radioLog
        = s.radioLog ++ [.startTransmit msg] := by
  obtain ⟨a4, l4, t4, r4, p4, c4⟩ := loopSecond_fields radio now (loopMinute radio now s)
  by_cases hm : TimeReached now s.state_minute = true
  · have e3 : (loopMinute radio now s).radioAction = RADIO_TX ∧
        (loopMinute radio now s).radioLog = s.radioLog ++ [.startTransmit "SYN"] ∧
        (loopMinute radio now s).transmittedFlag = false ∧
        (loopMinute radio now s).receivedFlag = false := by
      unfold loopMinute
      rw [if_pos hm]
      show (loraSend radio "SYN" _).2.radioAction = _ ∧ (loraSend radio "SYN" _).2.radioLog = _ ∧
        (loraSend radio "SYN" _).2.transmittedFlag = _ ∧
        (loraSend radio "SYN" _).2.receivedFlag = _
      rw [loraSend_accepted radio "SYN"]
      · exact ⟨rfl, rfl, ht, hr⟩
      · exact hfree
    obtain ⟨a3, l3, t3, r3⟩ := e3
    obtain ⟨a5, l5, _, _, _⟩ := loop100Msec_busy_fields radio now
      (loopSecond radio now (loopMinute radio now s)) (a4.trans a3) (t4.trans t3)
      (r4.trans r3)
    exact ⟨a5.trans (a4.trans a3), "SYN", l5.trans (l4.trans l3)⟩
  · obtain ⟨hdue, i, hi⟩ := hreq.resolve_left hm
    have e3 : loopMinute radio now s = s := by
      unfold loopMinute
      rw [if_neg hm]
    rw [e3] at a4 l4 t4 r4 p4 c4
    rw [e3, loop100Msec_due_idle radio now _ (by rw [c4]; exact hdue) (t4.trans ht)
      (r4.trans hr)]
    have hp : pinPending (loopSecond radio now s) i = true := by
      unfold pinPending at hi ⊢
      rw [p4]
      exact hi
    obtain ⟨htx, msg, hlog⟩ := sendPinState_some_pending radio
      { loopSecond radio now s with
        state_100_msec := SetNextTimeInterval now (loopSecond radio now s).state_100_msec 100 }
      (by
        show (loopSecond radio now s).radioAction ≠ RADIO_TX
        rw [a4]
        exact hfree)
      ⟨i, hp⟩
    exact ⟨htx, msg, hlog.trans (by
      show (loopSecond radio now s).radioLog ++ _ = _
      rw [l4])⟩

/-- C18: a pass of `loop` that begins with `radioAction == RADIO_OFF` and both
completion flags clear, and in which a send is requested (the minute task is
due, or the 100 ms task is due and a pin is attached with `stateTransmitted`
false), first sets `radioAction` to `RADIO_RX` and starts a receive; the send
request made later in the pass is accepted, so that the radio commands of the
pass are `startReceive` followed by one `startTransmit`, and the pass ends with
`radioAction == RADIO_TX`. -/
theorem loop_tx_priority (radio : Radio) (now : Nat) (s : State)
    (hoff : s.radioAction = RADIO_OFF)
    (ht : s.transmittedFlag = false) (hr : s.receivedFlag = false)
    (hreq : TimeReached now s.state_minute = true ∨
      (TimeReached now s.state_100_msec = true ∧
        ∃ i : Fin 3, (s.inputInterrupts i).interruptAttached = true ∧
          (s.inputInterrupts i).stateTransmitted = false)) :
    (loopListen s).radioAction = RADIO_RX ∧
    (loopListen s).radioLog = s.radioLog ++ [.startReceive] ∧
    (loop radio now s).radioAction = RADIO_TX ∧
    ∃ msg : String,
      (loop radio now s).radioLog = s.radioLog ++ [.startReceive, .startTransmit msg] := by
  have hl := loopListen_off s hoff
  have hf := loopAttach_frame (loopListen s)
  have a2 : (loopAttach (loopListen s)).radioAction = RADIO_RX := by rw [hf, hl]
  have l2 : (loopAttach (loopListen s)).radioLog = s.radioLog ++ [.startReceive] := by
    rw [hf, hl]
  have t2 : (loopAttach (loopListen s)).transmittedFlag = false := by
    rw [hf, hl]
    exact ht
  have r2 : (loopAttach (loopListen s)).receivedFlag = false := by
    rw [hf, hl]
    exact hr
  have m2 : (loopAttach (loopListen s)).state_minute = s.state_minute := by rw [hf, hl]
  have c2 : (loopAttach (loopListen s)).state_100_msec = s.state_100_msec := by rw [hf, hl]
  have hreq2 : TimeReached now (loopAttach (loopListen s)).state_minute = true ∨
      (TimeReached now (loopAttach (loopListen s)).state_100_msec = true ∧
        ∃ i : Fin 3, pinPending (loopAttach (loopListen s)) i = true) := by
    rw [m2, c2]
    rcases hreq with h | ⟨h, i, hi1, hi2⟩
    · exact Or.inl h
    · refine Or.inr ⟨h, i, loopAttach_pending _ i ?_⟩
      rw [hl]
      unfold pinPending
      simp [hi1, hi2]
  obtain ⟨htx, msg, hlog⟩ :=
    loop_tasks_send radio now (loopAttach (loopListen s)) (by rw [a2]; decide) t2 r2 hreq2
  refine ⟨by rw [hl], by rw [hl], ?_, msg, ?_⟩
  · rw [loop_stages]
    exact htx
  · rw [loop_stages, hlog, l2]
    simp

/-- Witness for C18: pin 0 pending and both timers due; the heartbeat is the
request that is accepted. -/
theorem loop_tx_priority_witness :
    pinChangedIdleState.radioAction = RADIO_OFF ∧
    (loop idealRadio 0 pinChangedIdleState).radioLog
      = pinChangedIdleState.radioLog ++ [.startReceive, .startTransmit "SYN"] ∧
    ((loopListen pinChangedIdleState).radioAction = RADIO_RX ∧
     (loopListen pinChangedIdleState).radioLog
       = pinChangedIdleState.radioLog ++ [.startReceive] ∧
     (loop idealRadio 0 pinChangedIdleState).radioAction = RADIO_TX ∧
     ∃ msg : String,
       (loop idealRadio 0 pinChangedIdleState).radioLog
         = pinChangedIdleState.radioLog ++ [.startReceive, .startTransmit msg]) :=
  ⟨by decide, by decide,
   loop_tx_priority idealRadio 0 pinChangedIdleState (by decide) (by decide) (by decide)
     (Or.inl (by decide))⟩

/-! ### Startup -/

end LoraRelay
